import Mathlib

/-!
Shallow embedding of the upload/convert/auto-publish request handler of
src/audio_recorder.py (FastAPI endpoint POST /api/upload), together with the
filename helpers it uses (_safe_stem, _timestamp_name and the pathlib-style
stem/suffix extraction).  External effects (files written into the recordings
directory, spawned subprocesses, remote-storage upload attempts) are tracked
explicitly, and the outcomes of the external collaborators (the ffmpeg
binary, the google-cloud-storage client, the transcription subprocess) are
inputs of the model, so that every control path of the handler is a pure
function of the request and of those outcomes.
-/

namespace StudioRecorder

/-- A command-line argument handed to subprocess.run: either a literal string
or a numeric value (the source formats trim floats into the argument list;
the model keeps the exact rational value). -/
inductive Arg where
  | s (v : String)
  | q (v : Rat)
deriving DecidableEq

/-- Split a character list on slashes (the components of a POSIX path). -/
def splitSlashes : List Char → List (List Char)
  | [] => [[]]
  | c :: t =>
    match splitSlashes t with
    | [] => [[]]
    | h :: r => if c = '/' then [] :: h :: r else (c :: h) :: r

/-- pathlib PurePosixPath.name: the last path component, after dropping empty
and "." components produced by splitting on slashes. -/
def pathName (p : String) : String :=
  ((((splitSlashes p.toList).map String.mk).filter
    (fun s => s != "" && s != ".")).getLast?).getD ""

/-- Python str.lower restricted to the ASCII range (the source lowercases
file extensions such as ".WAV"). -/
def lowerString (s : String) : String := String.mk (s.toList.map Char.toLower)

/-- pathlib stem/suffix split of a final component: the suffix starts at the
last dot, provided that dot is neither the first nor the last character of
the component; otherwise the suffix is empty and the stem is the whole name. -/
def splitStemSuffix (name : List Char) : List Char × List Char :=
  let afterDot := name.reverse.takeWhile (fun c => c != '.')
  if afterDot.length = name.length then (name, [])
  else if afterDot.length = 0 then (name, [])
  else if afterDot.length = name.length - 1 then (name, [])
  else (name.take (name.length - afterDot.length - 1),
        name.drop (name.length - afterDot.length - 1))

/-- pathlib Path(p).stem -/
def pathStem (p : String) : String := String.mk (splitStemSuffix (pathName p).toList).1

/-- pathlib Path(p).suffix -/
def pathSuffix (p : String) : String := String.mk (splitStemSuffix (pathName p).toList).2

/-- The characters _safe_stem keeps unchanged: ch.isalnum() or ch in "-_". -/
def allowedChar (c : Char) : Bool := c.isAlphanum || c == '-' || c == '_'

/-- Python str.strip("_"): remove leading and trailing underscores. -/
def stripUnderscores (l : List Char) : List Char :=
  ((l.dropWhile (fun c => c == '_')).reverse.dropWhile (fun c => c == '_')).reverse

/-- src/audio_recorder.py _safe_stem: map every character that is not
alphanumeric, dash or underscore to an underscore, strip underscores from
both ends, and fall back to "recording" when the result is empty. -/
def _safe_stem (name : String) : String :=
  let stripped := stripUnderscores
    (name.toList.map (fun c => if allowedChar c then c else '_'))
  if stripped = [] then "recording" else String.mk stripped

/-- src/audio_recorder.py _timestamp_name: prefix, underscore, timestamp.
The wall-clock timestamp string is an input of the model. -/
def _timestamp_name (pre ts : String) : String := pre ++ "_" ++ ts

/-- The multipart form fields of one POST /api/upload request.  The file
payload is its byte content plus the client-supplied filename. -/
structure UploadRequest where
  filename : String
  content : List UInt8
  name_base : Option String
  trim_start : Option Rat
  trim_end : Option Rat
  auto_upload_gcs : Option String
  auto_transcribe : Option String
deriving DecidableEq

/-- What happens when the handler spawns the encoder binary: the spawn fails
with file-not-found, or the process runs and returns an exit code (with
captured diagnostics). -/
inductive EncoderOutcome where
  | notFound (msg : String)
  | exit (code : Nat) (diag : String)
deriving DecidableEq

/-- What happens in the google-cloud-storage step: the import and client
calls succeed, or the library import fails, or an OSError is raised. -/
inductive GCSOutcome where
  | ok
  | importError
  | osError (msg : String)
deriving DecidableEq

/-- The environment of one request: the timestamp taken at name derivation,
the resolved ffmpeg binary, and the outcomes of the external collaborators. -/
structure Env where
  timestamp : String
  ffmpeg : String
  encoder : EncoderOutcome
  gcs : GCSOutcome
  bucket : Option String
  transcribeExit : Option Nat
deriving DecidableEq

/-- An HTTPException raised by the handler: status code and detail text. -/
structure HTTPError where
  status : Nat
  detail : String
deriving DecidableEq

/-- The JSON body of a successful response; these six fields are exactly the
keys the handler puts into the JSONResponse. -/
structure UploadResponse where
  original_filename : String
  mp3_filename : String
  original_url : String
  mp3_url : String
  auto_gcs_uploaded : Bool
  auto_transcribed : Bool
deriving DecidableEq

/-- Externally observable side effects of one request: names of files written
into the recordings directory, argument vectors of spawned subprocesses, and
blob names of attempted remote-storage uploads. -/
structure Effects where
  filesWritten : List String
  processes : List (List Arg)
  gcsAttempts : List String
deriving DecidableEq

def Effects.empty : Effects := ⟨[], [], []⟩

/-- name_base or Path(file.filename).stem or "recording" when name_base is
falsy: the fallback applied before sanitization. -/
def filenameFallback (req : UploadRequest) : String :=
  if pathStem req.filename = "" then "recording" else pathStem req.filename

/-- base = _safe_stem(name_base or Path(file.filename).stem or "recording") -/
def derivedBase (req : UploadRequest) : String :=
  _safe_stem (match req.name_base with
    | some s => if s = "" then filenameFallback req else s
    | none => filenameFallback req)

/-- stem = _timestamp_name(base) -/
def derivedStem (env : Env) (req : UploadRequest) : String :=
  _timestamp_name (derivedBase req) env.timestamp

/-- original_ext = (Path(file.filename).suffix or ".bin").lower() -/
def originalExt (req : UploadRequest) : String :=
  lowerString (if pathSuffix req.filename = "" then ".bin" else pathSuffix req.filename)

/-- original_name = stem + original_ext -/
def originalName (env : Env) (req : UploadRequest) : String :=
  derivedStem env req ++ originalExt req

/-- mp3_name = stem + ".mp3" -/
def mp3Name (env : Env) (req : UploadRequest) : String :=
  derivedStem env req ++ ".mp3"

/-- trim value present and negative -/
def negTrim (o : Option Rat) : Bool :=
  match o with
  | some v => decide (v < 0)
  | none => false

/-- both trim values present with trim_end <= trim_start -/
def badTrimPair (a b : Option Rat) : Bool :=
  match a, b with
  | some x, some y => decide (y ≤ x)
  | _, _ => false

/-- The optional trim flags: -ss trim_start when present, and -t with
duration trim_end - (trim_start or 0.0) when trim_end is present. -/
def trimArgs (req : UploadRequest) : List Arg :=
  (match req.trim_start with
    | some v => [Arg.s "-ss", Arg.q v]
    | none => [])
  ++ (match req.trim_end with
    | some te => [Arg.s "-t", Arg.q (te - (req.trim_start.getD 0))]
    | none => [])

/-- The full argument vector handed to subprocess.run for the encoder. -/
def ffmpegFullCmd (env : Env) (req : UploadRequest) : List Arg :=
  [Arg.s env.ffmpeg, Arg.s "-y", Arg.s "-v", Arg.s "error", Arg.s "-i",
   Arg.s ("recordings/" ++ originalName env req)]
  ++ trimArgs req
  ++ [Arg.s "-vn", Arg.s "-ac", Arg.s "1", Arg.s "-ar", Arg.s "44100",
      Arg.s "-codec:a", Arg.s "libmp3lame", Arg.s "-qscale:a", Arg.s "3",
      Arg.s ("recordings/" ++ mp3Name env req)]

/-- The auto-upload-to-GCS step: runs only when the flag is the string "1";
ImportError and OSError are caught, so the step only decides the boolean and
possibly records an upload attempt.  An empty or absent bucket name skips the
upload without error. -/
def gcsStep (env : Env) (req : UploadRequest) (mp3_name : String)
    (eff : Effects) : Bool × Effects :=
  if req.auto_upload_gcs = some "1" then
    match env.gcs with
    | GCSOutcome.ok =>
      match env.bucket with
      | some b =>
        if b != "" then
          (true, { eff with gcsAttempts := eff.gcsAttempts ++ [mp3_name] })
        else (false, eff)
      | none => (false, eff)
    | GCSOutcome.importError => (false, eff)
    | GCSOutcome.osError _ => (false, eff)
  else (false, eff)

/-- The auto-transcribe step: runs only when the flag is the string "1";
spawns the gc_stt.py subprocess with check=False, succeeding exactly on exit
code 0; OSError and SubprocessError are caught. -/
def transcribeStep (env : Env) (req : UploadRequest) (mp3_path : String)
    (eff : Effects) : Bool × Effects :=
  if req.auto_transcribe = some "1" then
    let eff2 := { eff with
      processes := eff.processes ++ [[Arg.s "python", Arg.s "gc_stt.py", Arg.s mp3_path]] }
    match env.transcribeExit with
    | some 0 => (true, eff2)
    | some _ => (false, eff2)
    | none => (false, eff2)
  else (false, eff)

/-- The side effects accumulated when the request has passed validation and
the original file has been written: one file, no process, no upload yet. -/
def writtenEffects (env : Env) (req : UploadRequest) : Effects :=
  ⟨[originalName env req], [], []⟩

/-- The side effects once the encoder subprocess has been spawned. -/
def spawnedEffects (env : Env) (req : UploadRequest) : Effects :=
  ⟨[originalName env req], [ffmpegFullCmd env req], []⟩

/-- The side effects after the encoder exited with status 0 and the MP3
exists: both files, the one encoder process, no upload attempt yet. -/
def successEffects (env : Env) (req : UploadRequest) : Effects :=
  ⟨[originalName env req, mp3Name env req], [ffmpegFullCmd env req], []⟩

/-- The POST /api/upload handler.  Returns the HTTP outcome (error with
status and detail, or the JSON success body) paired with the side effects
performed up to that point.  Mirrors the source order: filename check, name
derivation, empty-payload check, write of the original file, trim
validation, encoder spawn, optional GCS upload, optional transcription. -/
def upload (env : Env) (req : UploadRequest) :
    Except HTTPError UploadResponse × Effects :=
  if req.filename = "" then
    (Except.error ⟨400, "missing filename"⟩, Effects.empty)
  else if req.content = [] then
    (Except.error ⟨400, "empty upload"⟩, Effects.empty)
  else if negTrim req.trim_start then
    (Except.error ⟨400, "trim_start must be >= 0"⟩, writtenEffects env req)
  else if negTrim req.trim_end then
    (Except.error ⟨400, "trim_end must be >= 0"⟩, writtenEffects env req)
  else if badTrimPair req.trim_start req.trim_end then
    (Except.error ⟨400, "trim_end must be > trim_start"⟩, writtenEffects env req)
  else
    match env.encoder with
    | EncoderOutcome.notFound msg =>
      (Except.error ⟨500, "ffmpeg not found: " ++ msg⟩, spawnedEffects env req)
    | EncoderOutcome.exit code diag =>
      if code ≠ 0 then
        (Except.error ⟨500, "ffmpeg failed: " ++ diag⟩, spawnedEffects env req)
      else
        (Except.ok {
          original_filename := originalName env req,
          mp3_filename := mp3Name env req,
          original_url := "/recordings/" ++ originalName env req,
          mp3_url := "/recordings/" ++ mp3Name env req,
          auto_gcs_uploaded :=
            (gcsStep env req (mp3Name env req) (successEffects env req)).1,
          auto_transcribed :=
            (transcribeStep env req ("recordings/" ++ mp3Name env req)
              (gcsStep env req (mp3Name env req) (successEffects env req)).2).1 },
         (transcribeStep env req ("recordings/" ++ mp3Name env req)
            (gcsStep env req (mp3Name env req) (successEffects env req)).2).2)

/-- A sample environment: fixed timestamp, system ffmpeg on the PATH, the
encoder succeeding, the storage client reachable, a configured bucket, and a
transcription subprocess that exits 0. -/
def envOk : Env :=
  ⟨"2025-01-04_10-00-00", "ffmpeg", EncoderOutcome.exit 0 "", GCSOutcome.ok,
   some "bucket", some 0⟩

/-- A sample request: a one-byte payload named demo.wav with name base
"session", no trims and no auto-publish flags. -/
def reqBase : UploadRequest :=
  ⟨"demo.wav", [1], some "session", none, none, none, none⟩

/-- envOk with the storage-library import failing. -/
def envGcsFail : Env :=
  ⟨"2025-01-04_10-00-00", "ffmpeg", EncoderOutcome.exit 0 "",
   GCSOutcome.importError, some "bucket", some 0⟩

/-- envOk with the encoder binary absent: spawning raises file-not-found. -/
def envNoFfmpeg : Env :=
  ⟨"2025-01-04_10-00-00", "ffmpeg",
   EncoderOutcome.notFound "[Errno 2] No such file or directory",
   GCSOutcome.ok, some "bucket", some 0⟩

/-- reqBase with the spec's valid trim pair trim_start=1.0, trim_end=3.0. -/
def reqTrim : UploadRequest :=
  ⟨"demo.wav", [1], some "session", some 1, some 3, none, none⟩

/-- reqBase with the spec's invalid trim pair trim_start=2.0, trim_end=1.0. -/
def reqBadTrim : UploadRequest :=
  ⟨"demo.wav", [1], some "session", some 2, some 1, none, none⟩

/-- reqBase with auto_upload_gcs = "1". -/
def reqGcs : UploadRequest :=
  ⟨"demo.wav", [1], some "session", none, none, some "1", none⟩

/-- reqBase with only trim_end provided, equal to 0. -/
def reqEndOnly : UploadRequest :=
  ⟨"demo.wav", [1], some "session", none, some 0, none, none⟩

/-- A request with an empty payload and both auto-publish flags set. -/
def reqEmpty : UploadRequest :=
  ⟨"demo.wav", [], some "session", none, none, some "1", some "1"⟩

/-- A request with no name base and an uppercase extension. -/
def reqNoBase : UploadRequest :=
  ⟨"Demo.WAV", [1], none, none, none, none, none⟩

/-! ### Helper lemmas about the sanitizer -/

lemma dropWhile_idem (p : Char → Bool) (l : List Char) :
    (l.dropWhile p).dropWhile p = l.dropWhile p := by
  induction l with
  | nil => rfl
  | cons a t ih =>
    by_cases h : p a = true
    · rw [List.dropWhile_cons_of_pos h]
      exact ih
    · rw [List.dropWhile_cons_of_neg h, List.dropWhile_cons_of_neg h]

lemma dropWhile_eq_nil (p : Char → Bool) (l : List Char)
    (h : ∀ c ∈ l, p c = true) : l.dropWhile p = [] := by
  induction l with
  | nil => rfl
  | cons a t ih =>
    rw [List.dropWhile_cons_of_pos (h a (by simp))]
    exact ih (fun c hc => h c (by simp [hc]))

lemma dropWhile_head_false (p : Char → Bool) (l : List Char) (c : Char)
    (t : List Char) (h : l.dropWhile p = c :: t) : p c = false := by
  have h2 := List.head?_dropWhile_not p l
  rw [h] at h2
  simpa using h2

lemma stripUnderscores_def (l : List Char) :
    stripUnderscores l =
      ((l.dropWhile (fun c => c == '_')).reverse.dropWhile
        (fun c => c == '_')).reverse := rfl

lemma mem_of_mem_strip {c : Char} {l : List Char}
    (h : c ∈ stripUnderscores l) : c ∈ l := by
  rw [stripUnderscores_def, List.mem_reverse] at h
  have h2 := List.Sublist.mem h (List.dropWhile_sublist _)
  rw [List.mem_reverse] at h2
  exact List.Sublist.mem h2 (List.dropWhile_sublist _)

lemma strip_nil_of_all (l : List Char)
    (h : ∀ c ∈ l, (c == '_') = true) : stripUnderscores l = [] := by
  rw [stripUnderscores_def, dropWhile_eq_nil _ _ h]
  rfl

lemma strip_fixed (l : List Char) :
    stripUnderscores (stripUnderscores l) = stripUnderscores l := by
  have hrev : (stripUnderscores l).reverse =
      (l.dropWhile (fun c => c == '_')).reverse.dropWhile (fun c => c == '_') := by
    rw [stripUnderscores_def, List.reverse_reverse]
  have hdropB : (stripUnderscores l).dropWhile (fun c => c == '_') =
      stripUnderscores l := by
    cases hB : stripUnderscores l with
    | nil => rfl
    | cons c t =>
      have hpre : stripUnderscores l <+: l.dropWhile (fun c => c == '_') := by
        have h0 := List.reverse_prefix.mpr
          (List.dropWhile_suffix (l := (l.dropWhile (fun c => c == '_')).reverse)
            (fun c => c == '_'))
        rw [List.reverse_reverse] at h0
        exact h0
      obtain ⟨r, hr⟩ := hpre
      have hpc := dropWhile_head_false (fun c => c == '_') l c (t ++ r)
        (by rw [← hr, hB]; simp)
      rw [List.dropWhile_cons_of_neg (by simp [hpc])]
  rw [stripUnderscores_def (stripUnderscores l), hdropB, hrev,
    dropWhile_idem, ← stripUnderscores_def]

lemma allowed_map_allowed (c : Char) :
    allowedChar (if allowedChar c then c else '_') = true := by
  by_cases h : allowedChar c = true
  · rw [if_pos h]
    exact h
  · rw [if_neg h]
    decide

lemma mem_map_allowed {c : Char} {l : List Char}
    (h : c ∈ l.map (fun c => if allowedChar c then c else '_')) :
    allowedChar c = true := by
  obtain ⟨x, hx, rfl⟩ := List.mem_map.mp h
  exact allowed_map_allowed x

lemma map_allowed_id {l : List Char} (h : ∀ c ∈ l, allowedChar c = true) :
    l.map (fun c => if allowedChar c then c else '_') = l := by
  induction l with
  | nil => rfl
  | cons a t ih =>
    simp only [List.map_cons]
    rw [if_pos (h a (by simp)), ih (fun c hc => h c (by simp [hc]))]

lemma safe_stem_chars (s : String) :
    ∀ c ∈ (_safe_stem s).toList, allowedChar c = true := by
  intro c hc
  unfold _safe_stem at hc
  by_cases h : stripUnderscores
      (s.toList.map (fun c => if allowedChar c then c else '_')) = []
  · rw [if_pos h] at hc
    have hrec : ∀ c ∈ ("recording" : String).toList, allowedChar c = true := by
      decide
    exact hrec c hc
  · rw [if_neg h] at hc
    exact mem_map_allowed (mem_of_mem_strip hc)

lemma safe_stem_of_allowed (s : String)
    (hall : ∀ c ∈ s.toList, allowedChar c = true)
    (hstrip : stripUnderscores s.toList = s.toList)
    (hne : s.toList ≠ []) : _safe_stem s = s := by
  unfold _safe_stem
  rw [map_allowed_id hall, hstrip, if_neg hne]
  cases s
  rfl

lemma safe_stem_idem (s : String) :
    _safe_stem (_safe_stem s) = _safe_stem s := by
  by_cases h : stripUnderscores
      (s.toList.map (fun c => if allowedChar c then c else '_')) = []
  · have h1 : _safe_stem s = "recording" := by
      unfold _safe_stem
      rw [if_pos h]
    rw [h1]
    decide
  · have h1 : _safe_stem s = String.mk (stripUnderscores
        (s.toList.map (fun c => if allowedChar c then c else '_'))) := by
      unfold _safe_stem
      rw [if_neg h]
    rw [h1]
    apply safe_stem_of_allowed
    · intro c hc
      exact mem_map_allowed (mem_of_mem_strip hc)
    · exact strip_fixed _
    · exact h

/-! ### Helper lemmas about the publish steps and the handler paths -/

lemma gcsStep_flag_off (env : Env) (req : UploadRequest) (m : String)
    (eff : Effects) (h : req.auto_upload_gcs ≠ some "1") :
    gcsStep env req m eff = (false, eff) := by
  unfold gcsStep
  rw [if_neg h]

lemma gcsStep_fail (env : Env) (req : UploadRequest) (m : String)
    (eff : Effects) (h : env.gcs ≠ GCSOutcome.ok) :
    (gcsStep env req m eff).1 = false := by
  unfold gcsStep
  by_cases hflag : req.auto_upload_gcs = some "1"
  · rw [if_pos hflag]
    cases hg : env.gcs with
    | ok => exact absurd hg h
    | importError => rfl
    | osError m2 => rfl
  · rw [if_neg hflag]

lemma gcsStep_keeps (env : Env) (req : UploadRequest) (m : String)
    (eff : Effects) :
    (gcsStep env req m eff).2.filesWritten = eff.filesWritten ∧
    (gcsStep env req m eff).2.processes = eff.processes := by
  unfold gcsStep
  by_cases hflag : req.auto_upload_gcs = some "1"
  · rw [if_pos hflag]
    cases env.gcs with
    | ok =>
      cases env.bucket with
      | some b =>
        by_cases hb : (b != "") = true
        · simp [hb]
        · simp [hb]
      | none => exact ⟨rfl, rfl⟩
    | importError => exact ⟨rfl, rfl⟩
    | osError m2 => exact ⟨rfl, rfl⟩
  · rw [if_neg hflag]
    exact ⟨rfl, rfl⟩

lemma transcribeStep_flag_off (env : Env) (req : UploadRequest) (m : String)
    (eff : Effects) (h : req.auto_transcribe ≠ some "1") :
    transcribeStep env req m eff = (false, eff) := by
  unfold transcribeStep
  rw [if_neg h]

lemma transcribeStep_keeps (env : Env) (req : UploadRequest) (m : String)
    (eff : Effects) :
    (transcribeStep env req m eff).2.filesWritten = eff.filesWritten ∧
    (transcribeStep env req m eff).2.gcsAttempts = eff.gcsAttempts := by
  unfold transcribeStep
  by_cases hflag : req.auto_transcribe = some "1"
  · rw [if_pos hflag]
    cases env.transcribeExit with
    | none => exact ⟨rfl, rfl⟩
    | some c =>
      cases c with
      | zero => exact ⟨rfl, rfl⟩
      | succ n => exact ⟨rfl, rfl⟩
  · rw [if_neg hflag]
    exact ⟨rfl, rfl⟩

lemma transcribeStep_processes (env : Env) (req : UploadRequest) (m : String)
    (eff : Effects) :
    (transcribeStep env req m eff).2.processes = eff.processes ∨
    (transcribeStep env req m eff).2.processes =
      eff.processes ++ [[Arg.s "python", Arg.s "gc_stt.py", Arg.s m]] := by
  unfold transcribeStep
  by_cases hflag : req.auto_transcribe = some "1"
  · rw [if_pos hflag]
    cases env.transcribeExit with
    | none => exact Or.inr rfl
    | some c =>
      cases c with
      | zero => exact Or.inr rfl
      | succ n => exact Or.inr rfl
  · rw [if_neg hflag]
    exact Or.inl rfl

/-- Full evaluation of the handler on the success path. -/
lemma upload_run (env : Env) (req : UploadRequest)
    (hf : ¬ req.filename = "") (hc : ¬ req.content = [])
    (h1 : negTrim req.trim_start = false) (h2 : negTrim req.trim_end = false)
    (h3 : badTrimPair req.trim_start req.trim_end = false)
    (diag : String) (henc : env.encoder = EncoderOutcome.exit 0 diag) :
    upload env req =
      (Except.ok {
        original_filename := originalName env req,
        mp3_filename := mp3Name env req,
        original_url := "/recordings/" ++ originalName env req,
        mp3_url := "/recordings/" ++ mp3Name env req,
        auto_gcs_uploaded :=
          (gcsStep env req (mp3Name env req) (successEffects env req)).1,
        auto_transcribed :=
          (transcribeStep env req ("recordings/" ++ mp3Name env req)
            (gcsStep env req (mp3Name env req) (successEffects env req)).2).1 },
       (transcribeStep env req ("recordings/" ++ mp3Name env req)
          (gcsStep env req (mp3Name env req) (successEffects env req)).2).2) := by
  unfold upload
  rw [if_neg hf, if_neg hc, henc]
  simp only [h1, h2, h3]
  rfl

/-- The lowercasing distributes under the or-".bin" fallback, since ".bin"
is already lowercase. -/
lemma originalExt_eq (req : UploadRequest) :
    originalExt req = (if pathSuffix req.filename = "" then ".bin"
      else lowerString (pathSuffix req.filename)) := by
  unfold originalExt
  by_cases h : pathSuffix req.filename = ""
  · rw [if_pos h, if_pos h]
    decide
  · rw [if_neg h, if_neg h]

/-- Evaluation of the handler once it reaches the encoder spawn and the
spawn returns an exit code: the outcome only depends on whether the code is
zero. -/
lemma upload_exit_eq (env : Env) (req : UploadRequest)
    (hf : ¬ req.filename = "") (hc : ¬ req.content = [])
    (h1 : ¬ negTrim req.trim_start = true) (h2 : ¬ negTrim req.trim_end = true)
    (h3 : ¬ badTrimPair req.trim_start req.trim_end = true)
    (code : Nat) (diag : String)
    (hg : env.encoder = EncoderOutcome.exit code diag) :
    upload env req =
      if code ≠ 0 then
        (Except.error ⟨500, "ffmpeg failed: " ++ diag⟩, spawnedEffects env req)
      else
        (Except.ok {
          original_filename := originalName env req,
          mp3_filename := mp3Name env req,
          original_url := "/recordings/" ++ originalName env req,
          mp3_url := "/recordings/" ++ mp3Name env req,
          auto_gcs_uploaded :=
            (gcsStep env req (mp3Name env req) (successEffects env req)).1,
          auto_transcribed :=
            (transcribeStep env req ("recordings/" ++ mp3Name env req)
              (gcsStep env req (mp3Name env req) (successEffects env req)).2).1 },
         (transcribeStep env req ("recordings/" ++ mp3Name env req)
            (gcsStep env req (mp3Name env req) (successEffects env req)).2).2) := by
  unfold upload
  rw [if_neg hf, if_neg hc, if_neg h1, if_neg h2, if_neg h3, hg]

/-- Evaluation of the handler when the encoder spawn raises file-not-found. -/
lemma upload_notfound_eq (env : Env) (req : UploadRequest)
    (hf : ¬ req.filename = "") (hc : ¬ req.content = [])
    (h1 : ¬ negTrim req.trim_start = true) (h2 : ¬ negTrim req.trim_end = true)
    (h3 : ¬ badTrimPair req.trim_start req.trim_end = true)
    (msg : String) (hg : env.encoder = EncoderOutcome.notFound msg) :
    upload env req =
      (Except.error ⟨500, "ffmpeg not found: " ++ msg⟩, spawnedEffects env req) := by
  unfold upload
  rw [if_neg hf, if_neg hc, if_neg h1, if_neg h2, if_neg h3, hg]

/-- A successful response always carries the derived names and urls. -/
lemma upload_ok_shape (env : Env) (req : UploadRequest) (resp : UploadResponse)
    (h : (upload env req).1 = Except.ok resp) :
    resp.original_filename = originalName env req ∧
    resp.mp3_filename = mp3Name env req ∧
    resp.original_url = "/recordings/" ++ originalName env req ∧
    resp.mp3_url = "/recordings/" ++ mp3Name env req ∧
    resp.auto_gcs_uploaded =
      (gcsStep env req (mp3Name env req) (successEffects env req)).1 ∧
    resp.auto_transcribed =
      (transcribeStep env req ("recordings/" ++ mp3Name env req)
        (gcsStep env req (mp3Name env req) (successEffects env req)).2).1 ∧
    (upload env req).2.filesWritten = [originalName env req, mp3Name env req] := by
  unfold upload at h
  by_cases hf : req.filename = ""
  · rw [if_pos hf] at h
    simp at h
  · rw [if_neg hf] at h
    by_cases hc : req.content = []
    · rw [if_pos hc] at h
      simp at h
    · rw [if_neg hc] at h
      by_cases h1 : negTrim req.trim_start = true
      · rw [if_pos h1] at h
        simp at h
      · rw [if_neg h1] at h
        by_cases h2 : negTrim req.trim_end = true
        · rw [if_pos h2] at h
          simp at h
        · rw [if_neg h2] at h
          by_cases h3 : badTrimPair req.trim_start req.trim_end = true
          · rw [if_pos h3] at h
            simp at h
          · rw [if_neg h3] at h
            cases hg : env.encoder with
            | notFound msg =>
              rw [hg] at h
              simp at h
            | exit code diag =>
              rw [hg] at h
              by_cases hcode : code = 0
              · subst hcode
                simp at h
                subst h
                have h1f : negTrim req.trim_start = false := by
                  revert h1
                  cases negTrim req.trim_start <;> simp
                have h2f : negTrim req.trim_end = false := by
                  revert h2
                  cases negTrim req.trim_end <;> simp
                have h3f : badTrimPair req.trim_start req.trim_end = false := by
                  revert h3
                  cases badTrimPair req.trim_start req.trim_end <;> simp
                have hsnd : (upload env req).2 =
                    (transcribeStep env req ("recordings/" ++ mp3Name env req)
                      (gcsStep env req (mp3Name env req)
                        (successEffects env req)).2).2 := by
                  unfold upload
                  rw [if_neg hf, if_neg hc, hg]
                  simp only [h1f, h2f, h3f]
                  rfl
                refine ⟨rfl, rfl, rfl, rfl, rfl, rfl, ?_⟩
                rw [hsnd, (transcribeStep_keeps env req _ _).1,
                  (gcsStep_keeps env req _ _).1]
                rfl
              · simp [hcode] at h

/-! ### Claim theorems -/

/-- C5: a request whose file payload is empty always fails with an HTTP 400
error, regardless of every other field; nothing is written and nothing is
spawned. -/
theorem upload_empty_payload_400 (env : Env) (req : UploadRequest)
    (h : req.content = []) :
    ∃ e, (upload env req).1 = Except.error e ∧ e.status = 400 ∧
      (upload env req).2 = Effects.empty := by
  unfold upload
  by_cases hf : req.filename = ""
  · rw [if_pos hf]
    exact ⟨⟨400, "missing filename"⟩, rfl, rfl, rfl⟩
  · rw [if_neg hf, if_pos h]
    exact ⟨⟨400, "empty upload"⟩, rfl, rfl, rfl⟩

/-- Witness for C5 at a concrete empty-payload request with both
auto-publish flags set. -/
theorem upload_empty_payload_400_witness :
    ∃ e, (upload envOk reqEmpty).1 = Except.error e ∧ e.status = 400 ∧
      (upload envOk reqEmpty).2 = Effects.empty :=
  upload_empty_payload_400 envOk reqEmpty rfl

/-- C1 counterexample: at the spec's own scenario (trim_start = 2.0,
trim_end = 1.0, one-byte payload named demo.wav) the handler does fail with
BadRequest 400, but the recordings directory has already received the
original file, refuting the part of the claim that says no files are
written. -/
theorem upload_badtrim_counterexample :
    (upload envOk reqBadTrim).1 =
      Except.error ⟨400, "trim_end must be > trim_start"⟩ ∧
    (upload envOk reqBadTrim).2.filesWritten =
      ["session_2025-01-04_10-00-00.wav"] :=
  ⟨rfl, rfl⟩

/-- C1 (amended): when both trims are provided with trim_end <= trim_start
the handler fails with an HTTP 400 error and the encoder is never spawned,
so no MP3 is produced; however the original file is written before the trim
validation, so the files written are either none (when an earlier 400 fired
first) or exactly the original. -/
theorem upload_badtrim_badrequest (env : Env) (req : UploadRequest)
    (a b : Rat) (hs : req.trim_start = some a) (he : req.trim_end = some b)
    (hba : b ≤ a) :
    (∃ e, (upload env req).1 = Except.error e ∧ e.status = 400) ∧
    (upload env req).2.processes = [] ∧
    ((upload env req).2.filesWritten = [] ∨
     (upload env req).2.filesWritten = [originalName env req]) := by
  unfold upload
  by_cases hf : req.filename = ""
  · rw [if_pos hf]
    exact ⟨⟨⟨400, "missing filename"⟩, rfl, rfl⟩, rfl, Or.inl rfl⟩
  · rw [if_neg hf]
    by_cases hc : req.content = []
    · rw [if_pos hc]
      exact ⟨⟨⟨400, "empty upload"⟩, rfl, rfl⟩, rfl, Or.inl rfl⟩
    · rw [if_neg hc]
      by_cases h1 : negTrim req.trim_start = true
      · rw [if_pos h1]
        exact ⟨⟨⟨400, "trim_start must be >= 0"⟩, rfl, rfl⟩, rfl, Or.inr rfl⟩
      · rw [if_neg h1]
        by_cases h2 : negTrim req.trim_end = true
        · rw [if_pos h2]
          exact ⟨⟨⟨400, "trim_end must be >= 0"⟩, rfl, rfl⟩, rfl, Or.inr rfl⟩
        · rw [if_neg h2]
          have h3 : badTrimPair req.trim_start req.trim_end = true := by
            rw [hs, he]
            unfold badTrimPair
            simp [hba]
          rw [if_pos h3]
          exact ⟨⟨⟨400, "trim_end must be > trim_start"⟩, rfl, rfl⟩, rfl,
            Or.inr rfl⟩

/-- Witness for the amended C1 at trim_start = 2.0, trim_end = 1.0. -/
theorem upload_badtrim_badrequest_witness :
    (∃ e, (upload envOk reqBadTrim).1 = Except.error e ∧ e.status = 400) ∧
    (upload envOk reqBadTrim).2.processes = [] ∧
    ((upload envOk reqBadTrim).2.filesWritten = [] ∨
     (upload envOk reqBadTrim).2.filesWritten = [originalName envOk reqBadTrim]) :=
  upload_badtrim_badrequest envOk reqBadTrim 2 1 rfl rfl (by norm_num)

/-- C4: when spawning the encoder raises file-not-found, the request fails
with status 500 and a detail reporting that ffmpeg was not found, and the
encoder output is never produced: the only file written is the original. -/
theorem upload_encoder_missing (env : Env) (req : UploadRequest) (msg : String)
    (henc : env.encoder = EncoderOutcome.notFound msg)
    (hf : ¬ req.filename = "") (hc : ¬ req.content = [])
    (h1 : negTrim req.trim_start = false) (h2 : negTrim req.trim_end = false)
    (h3 : badTrimPair req.trim_start req.trim_end = false) :
    (upload env req).1 = Except.error ⟨500, "ffmpeg not found: " ++ msg⟩ ∧
    (upload env req).2.filesWritten = [originalName env req] ∧
    (mp3Name env req ≠ originalName env req →
      mp3Name env req ∉ (upload env req).2.filesWritten) := by
  unfold upload
  rw [if_neg hf, if_neg hc, henc]
  simp only [h1, h2, h3]
  refine ⟨rfl, rfl, fun hne => ?_⟩
  show mp3Name env req ∉ [originalName env req]
  simp [hne]

/-- Witness for C4: encoder absent, valid request. -/
theorem upload_encoder_missing_witness :
    (upload envNoFfmpeg reqBase).1 = Except.error
      ⟨500, "ffmpeg not found: " ++ "[Errno 2] No such file or directory"⟩ ∧
    (upload envNoFfmpeg reqBase).2.filesWritten =
      [originalName envNoFfmpeg reqBase] ∧
    (mp3Name envNoFfmpeg reqBase ≠ originalName envNoFfmpeg reqBase →
      mp3Name envNoFfmpeg reqBase ∉ (upload envNoFfmpeg reqBase).2.filesWritten) :=
  upload_encoder_missing envNoFfmpeg reqBase
    "[Errno 2] No such file or directory" rfl (by decide) (by decide)
    rfl rfl rfl

/-- C2: with auto_upload_gcs = "1", a failing remote-storage step (a failed
library import or an OSError, the exceptions the handler catches) leaves
auto_gcs_uploaded = false in the response and never fails the request: the
handler still returns the normal success response. -/
theorem upload_gcs_failure_absorbed (env : Env) (req : UploadRequest)
    (_hflag : req.auto_upload_gcs = some "1")
    (hgcs : env.gcs ≠ GCSOutcome.ok)
    (hf : ¬ req.filename = "") (hc : ¬ req.content = [])
    (h1 : negTrim req.trim_start = false) (h2 : negTrim req.trim_end = false)
    (h3 : badTrimPair req.trim_start req.trim_end = false)
    (diag : String) (henc : env.encoder = EncoderOutcome.exit 0 diag) :
    ∃ resp, (upload env req).1 = Except.ok resp ∧
      resp.auto_gcs_uploaded = false := by
  rw [upload_run env req hf hc h1 h2 h3 diag henc]
  exact ⟨_, rfl, gcsStep_fail env req (mp3Name env req) (successEffects env req) hgcs⟩

/-- Witness for C2: import of the storage library fails while the flag is
set; the request still succeeds with auto_gcs_uploaded = false. -/
theorem upload_gcs_failure_absorbed_witness :
    ∃ resp, (upload envGcsFail reqGcs).1 = Except.ok resp ∧
      resp.auto_gcs_uploaded = false :=
  upload_gcs_failure_absorbed envGcsFail reqGcs rfl (by decide) (by decide)
    (by decide) rfl rfl rfl "" rfl

/-- C3: with both trims provided and trim_end > trim_start >= 0, validation
passes, the request succeeds, and the encoder command line contains -ss
trim_start and -t (trim_end - trim_start) in addition to the fixed
arguments (-vn, mono, 44100 Hz, libmp3lame, qscale 3, output stem.mp3). -/
theorem upload_trim_flags (env : Env) (req : UploadRequest) (a b : Rat)
    (hs : req.trim_start = some a) (he : req.trim_end = some b)
    (ha : 0 ≤ a) (hab : a < b)
    (hf : ¬ req.filename = "") (hc : ¬ req.content = [])
    (diag : String) (henc : env.encoder = EncoderOutcome.exit 0 diag) :
    (∃ resp, (upload env req).1 = Except.ok resp) ∧
    ffmpegFullCmd env req ∈ (upload env req).2.processes ∧
    ffmpegFullCmd env req =
      [Arg.s env.ffmpeg, Arg.s "-y", Arg.s "-v", Arg.s "error", Arg.s "-i",
       Arg.s ("recordings/" ++ originalName env req),
       Arg.s "-ss", Arg.q a, Arg.s "-t", Arg.q (b - a),
       Arg.s "-vn", Arg.s "-ac", Arg.s "1", Arg.s "-ar", Arg.s "44100",
       Arg.s "-codec:a", Arg.s "libmp3lame", Arg.s "-qscale:a", Arg.s "3",
       Arg.s ("recordings/" ++ mp3Name env req)] := by
  have h1 : negTrim req.trim_start = false := by
    rw [hs]
    unfold negTrim
    simp [not_lt.mpr ha]
  have h2 : negTrim req.trim_end = false := by
    rw [he]
    unfold negTrim
    simp [not_lt.mpr (le_trans ha (le_of_lt hab))]
  have h3 : badTrimPair req.trim_start req.trim_end = false := by
    rw [hs, he]
    unfold badTrimPair
    simp [not_le.mpr hab]
  rw [upload_run env req hf hc h1 h2 h3 diag henc]
  refine ⟨⟨_, rfl⟩, ?_, ?_⟩
  · show ffmpegFullCmd env req ∈
      (transcribeStep env req ("recordings/" ++ mp3Name env req)
        (gcsStep env req (mp3Name env req) (successEffects env req)).2).2.processes
    rcases transcribeStep_processes env req ("recordings/" ++ mp3Name env req)
      (gcsStep env req (mp3Name env req) (successEffects env req)).2 with ht | ht
    · rw [ht, (gcsStep_keeps env req (mp3Name env req) (successEffects env req)).2]
      simp [successEffects]
    · rw [ht, (gcsStep_keeps env req (mp3Name env req) (successEffects env req)).2]
      simp [successEffects]
  · unfold ffmpegFullCmd trimArgs
    rw [hs, he]
    simp

/-- Witness for C3 at the spec's scenario trim_start = 1.0, trim_end = 3.0. -/
theorem upload_trim_flags_witness :
    (∃ resp, (upload envOk reqTrim).1 = Except.ok resp) ∧
    ffmpegFullCmd envOk reqTrim ∈ (upload envOk reqTrim).2.processes ∧
    ffmpegFullCmd envOk reqTrim =
      [Arg.s envOk.ffmpeg, Arg.s "-y", Arg.s "-v", Arg.s "error", Arg.s "-i",
       Arg.s ("recordings/" ++ originalName envOk reqTrim),
       Arg.s "-ss", Arg.q 1, Arg.s "-t", Arg.q (3 - 1),
       Arg.s "-vn", Arg.s "-ac", Arg.s "1", Arg.s "-ar", Arg.s "44100",
       Arg.s "-codec:a", Arg.s "libmp3lame", Arg.s "-qscale:a", Arg.s "3",
       Arg.s ("recordings/" ++ mp3Name envOk reqTrim)] :=
  upload_trim_flags envOk reqTrim 1 3 rfl rfl (by norm_num) (by norm_num)
    (by decide) (by decide) "" rfl

/-- C9: providing trim_end without trim_start is accepted for every
trim_end >= 0, including trim_end = 0 (no comparison against an implicit
trim_start of 0): the request succeeds and the command carries -t trim_end
and no -ss flag. -/
theorem upload_trim_end_only (env : Env) (req : UploadRequest) (b : Rat)
    (hs : req.trim_start = none) (he : req.trim_end = some b) (hb : 0 ≤ b)
    (hf : ¬ req.filename = "") (hc : ¬ req.content = [])
    (diag : String) (henc : env.encoder = EncoderOutcome.exit 0 diag) :
    (∃ resp, (upload env req).1 = Except.ok resp) ∧
    ffmpegFullCmd env req =
      [Arg.s env.ffmpeg, Arg.s "-y", Arg.s "-v", Arg.s "error", Arg.s "-i",
       Arg.s ("recordings/" ++ originalName env req),
       Arg.s "-t", Arg.q b,
       Arg.s "-vn", Arg.s "-ac", Arg.s "1", Arg.s "-ar", Arg.s "44100",
       Arg.s "-codec:a", Arg.s "libmp3lame", Arg.s "-qscale:a", Arg.s "3",
       Arg.s ("recordings/" ++ mp3Name env req)] := by
  have h1 : negTrim req.trim_start = false := by
    rw [hs]
    rfl
  have h2 : negTrim req.trim_end = false := by
    rw [he]
    unfold negTrim
    simp [not_lt.mpr hb]
  have h3 : badTrimPair req.trim_start req.trim_end = false := by
    rw [hs, he]
    rfl
  rw [upload_run env req hf hc h1 h2 h3 diag henc]
  refine ⟨⟨_, rfl⟩, ?_⟩
  unfold ffmpegFullCmd trimArgs
  rw [hs, he]
  simp

/-- Witness for C9 at trim_end = 0 with no trim_start. -/
theorem upload_trim_end_only_witness :
    (∃ resp, (upload envOk reqEndOnly).1 = Except.ok resp) ∧
    ffmpegFullCmd envOk reqEndOnly =
      [Arg.s envOk.ffmpeg, Arg.s "-y", Arg.s "-v", Arg.s "error", Arg.s "-i",
       Arg.s ("recordings/" ++ originalName envOk reqEndOnly),
       Arg.s "-t", Arg.q 0,
       Arg.s "-vn", Arg.s "-ac", Arg.s "1", Arg.s "-ar", Arg.s "44100",
       Arg.s "-codec:a", Arg.s "libmp3lame", Arg.s "-qscale:a", Arg.s "3",
       Arg.s ("recordings/" ++ mp3Name envOk reqEndOnly)] :=
  upload_trim_end_only envOk reqEndOnly 0 rfl rfl (by norm_num)
    (by decide) (by decide) "" rfl

/-- C7: when neither auto-publish flag equals the string "1", any success
response reports auto_gcs_uploaded = false and auto_transcribed = false, no
remote-storage upload is ever attempted, and on every path the processes
spawned are at most the single encoder invocation. -/
theorem upload_no_publish (env : Env) (req : UploadRequest)
    (hG : req.auto_upload_gcs ≠ some "1")
    (hT : req.auto_transcribe ≠ some "1") :
    (∀ resp, (upload env req).1 = Except.ok resp →
      resp.auto_gcs_uploaded = false ∧ resp.auto_transcribed = false) ∧
    (upload env req).2.gcsAttempts = [] ∧
    ((upload env req).2.processes = [] ∨
     (upload env req).2.processes = [ffmpegFullCmd env req]) := by
  by_cases hf : req.filename = ""
  · have hu : upload env req = (Except.error ⟨400, "missing filename"⟩, Effects.empty) := by
      unfold upload
      rw [if_pos hf]
    rw [hu]
    exact ⟨fun resp hr => absurd hr (by simp), rfl, Or.inl rfl⟩
  · by_cases hc : req.content = []
    · have hu : upload env req = (Except.error ⟨400, "empty upload"⟩, Effects.empty) := by
        unfold upload
        rw [if_neg hf, if_pos hc]
      rw [hu]
      exact ⟨fun resp hr => absurd hr (by simp), rfl, Or.inl rfl⟩
    · by_cases h1 : negTrim req.trim_start = true
      · have hu : upload env req =
            (Except.error ⟨400, "trim_start must be >= 0"⟩, writtenEffects env req) := by
          unfold upload
          rw [if_neg hf, if_neg hc, if_pos h1]
        rw [hu]
        exact ⟨fun resp hr => absurd hr (by simp), rfl, Or.inl rfl⟩
      · by_cases h2 : negTrim req.trim_end = true
        · have hu : upload env req =
              (Except.error ⟨400, "trim_end must be >= 0"⟩, writtenEffects env req) := by
            unfold upload
            rw [if_neg hf, if_neg hc, if_neg h1, if_pos h2]
          rw [hu]
          exact ⟨fun resp hr => absurd hr (by simp), rfl, Or.inl rfl⟩
        · by_cases h3 : badTrimPair req.trim_start req.trim_end = true
          · have hu : upload env req =
                (Except.error ⟨400, "trim_end must be > trim_start"⟩, writtenEffects env req) := by
              unfold upload
              rw [if_neg hf, if_neg hc, if_neg h1, if_neg h2, if_pos h3]
            rw [hu]
            exact ⟨fun resp hr => absurd hr (by simp), rfl, Or.inl rfl⟩
          · cases hg : env.encoder with
            | notFound msg =>
              rw [upload_notfound_eq env req hf hc h1 h2 h3 msg hg]
              exact ⟨fun resp hr => absurd hr (by simp), rfl, Or.inr rfl⟩
            | exit code diag =>
              rw [upload_exit_eq env req hf hc h1 h2 h3 code diag hg]
              by_cases hcode : code ≠ 0
              · rw [if_pos hcode]
                exact ⟨fun resp hr => absurd hr (by simp), rfl, Or.inr rfl⟩
              · rw [if_neg hcode,
                    gcsStep_flag_off env req (mp3Name env req)
                      (successEffects env req) hG,
                    transcribeStep_flag_off env req
                      ("recordings/" ++ mp3Name env req) _ hT]
                refine ⟨fun resp hr => ?_, rfl, Or.inr rfl⟩
                simp at hr
                subst hr
                exact ⟨rfl, rfl⟩

/-- Witness for C7 at a request with no auto-publish flags. -/
theorem upload_no_publish_witness :
    (∀ resp, (upload envOk reqBase).1 = Except.ok resp →
      resp.auto_gcs_uploaded = false ∧ resp.auto_transcribed = false) ∧
    (upload envOk reqBase).2.gcsAttempts = [] ∧
    ((upload envOk reqBase).2.processes = [] ∨
     (upload envOk reqBase).2.processes = [ffmpegFullCmd envOk reqBase]) :=
  upload_no_publish envOk reqBase (by decide) (by decide)

/-- C6: the stem sanitizer is idempotent; a name consisting only of
disallowed characters (neither alphanumeric nor dash nor underscore)
sanitizes to the fixed default "recording"; and every character of a
sanitized result is alphanumeric, a dash or an underscore. -/
theorem safe_stem_props :
    (∀ s : String, _safe_stem (_safe_stem s) = _safe_stem s) ∧
    (∀ s : String, (∀ c ∈ s.toList, allowedChar c = false) →
      _safe_stem s = "recording") ∧
    (∀ s : String, ∀ c ∈ (_safe_stem s).toList, allowedChar c = true) := by
  refine ⟨safe_stem_idem, ?_, safe_stem_chars⟩
  intro s h
  unfold _safe_stem
  rw [if_pos]
  apply strip_nil_of_all
  intro c hc
  obtain ⟨x, hx, rfl⟩ := List.mem_map.mp hc
  rw [if_neg]
  · rfl
  · simp [h x hx]

/-- Witness for C6: idempotence at "a b!" and the all-disallowed fallback at
"!!! ???". -/
theorem safe_stem_props_witness :
    _safe_stem (_safe_stem "a b!") = _safe_stem "a b!" ∧
    _safe_stem "!!! ???" = "recording" :=
  ⟨safe_stem_props.1 "a b!", safe_stem_props.2.1 "!!! ???" (by decide)⟩

/-- C8: every successful upload response consists of the six fields of
UploadResponse, with both urls equal to the static prefix "/recordings/"
plus the corresponding filename, both filenames sharing the derived stem
(sanitized name base, underscore, timestamp), and the MP3 name being the
stem plus ".mp3". -/
theorem upload_response_shape (env : Env) (req : UploadRequest)
    (resp : UploadResponse) (h : (upload env req).1 = Except.ok resp) :
    resp.original_filename = derivedStem env req ++ originalExt req ∧
    resp.mp3_filename = derivedStem env req ++ ".mp3" ∧
    resp.original_url = "/recordings/" ++ resp.original_filename ∧
    resp.mp3_url = "/recordings/" ++ resp.mp3_filename ∧
    derivedStem env req = derivedBase req ++ "_" ++ env.timestamp := by
  obtain ⟨h1, h2, h3, h4, _, _, _⟩ := upload_ok_shape env req resp h
  refine ⟨h1, h2, ?_, ?_, rfl⟩
  · rw [h1]
    exact h3
  · rw [h2]
    exact h4

/-- Witness for C8 at a concrete successful request. -/
theorem upload_response_shape_witness :
    ({ original_filename := "session_2025-01-04_10-00-00.wav",
       mp3_filename := "session_2025-01-04_10-00-00.mp3",
       original_url := "/recordings/session_2025-01-04_10-00-00.wav",
       mp3_url := "/recordings/session_2025-01-04_10-00-00.mp3",
       auto_gcs_uploaded := false,
       auto_transcribed := false } : UploadResponse).original_filename =
        derivedStem envOk reqBase ++ originalExt reqBase ∧
    ({ original_filename := "session_2025-01-04_10-00-00.wav",
       mp3_filename := "session_2025-01-04_10-00-00.mp3",
       original_url := "/recordings/session_2025-01-04_10-00-00.wav",
       mp3_url := "/recordings/session_2025-01-04_10-00-00.mp3",
       auto_gcs_uploaded := false,
       auto_transcribed := false } : UploadResponse).mp3_filename =
        derivedStem envOk reqBase ++ ".mp3" ∧
    ({ original_filename := "session_2025-01-04_10-00-00.wav",
       mp3_filename := "session_2025-01-04_10-00-00.mp3",
       original_url := "/recordings/session_2025-01-04_10-00-00.wav",
       mp3_url := "/recordings/session_2025-01-04_10-00-00.mp3",
       auto_gcs_uploaded := false,
       auto_transcribed := false } : UploadResponse).original_url =
        "/recordings/" ++ "session_2025-01-04_10-00-00.wav" ∧
    ({ original_filename := "session_2025-01-04_10-00-00.wav",
       mp3_filename := "session_2025-01-04_10-00-00.mp3",
       original_url := "/recordings/session_2025-01-04_10-00-00.wav",
       mp3_url := "/recordings/session_2025-01-04_10-00-00.mp3",
       auto_gcs_uploaded := false,
       auto_transcribed := false } : UploadResponse).mp3_url =
        "/recordings/" ++ "session_2025-01-04_10-00-00.mp3" ∧
    derivedStem envOk reqBase = derivedBase reqBase ++ "_" ++ envOk.timestamp :=
  upload_response_shape envOk reqBase
    { original_filename := "session_2025-01-04_10-00-00.wav",
      mp3_filename := "session_2025-01-04_10-00-00.mp3",
      original_url := "/recordings/session_2025-01-04_10-00-00.wav",
      mp3_url := "/recordings/session_2025-01-04_10-00-00.mp3",
      auto_gcs_uploaded := false,
      auto_transcribed := false } rfl

/-- C10: on every successful upload the persisted original name (returned
and first in the list of files written) is the stem followed by the
lowercased extension of the uploaded filename, with ".bin" when there is no
extension; and an omitted or empty name_base falls back to the uploaded
filename's own stem, and then to "recording". -/
theorem upload_original_name (env : Env) (req : UploadRequest)
    (resp : UploadResponse) (h : (upload env req).1 = Except.ok resp) :
    resp.original_filename =
      derivedStem env req ++
        (if pathSuffix req.filename = "" then ".bin"
         else lowerString (pathSuffix req.filename)) ∧
    resp.original_filename ∈ (upload env req).2.filesWritten ∧
    ((req.name_base = none ∨ req.name_base = some "") →
      derivedBase req =
        _safe_stem (if pathStem req.filename = "" then "recording"
          else pathStem req.filename)) := by
  obtain ⟨h1, _, _, _, _, _, hfw⟩ := upload_ok_shape env req resp h
  refine ⟨?_, ?_, ?_⟩
  · rw [h1]
    show derivedStem env req ++ originalExt req = _
    rw [originalExt_eq req]
  · rw [h1, hfw]
    simp
  · rintro (hn | hn)
    · unfold derivedBase
      rw [hn]
      rfl
    · unfold derivedBase
      rw [hn]
      rfl

/-- Witness for C10 at a request with no name base and an uppercase
extension: the stem falls back to "Demo" and the extension lowercases. -/
theorem upload_original_name_witness :
    ({ original_filename := "Demo_2025-01-04_10-00-00.wav",
       mp3_filename := "Demo_2025-01-04_10-00-00.mp3",
       original_url := "/recordings/Demo_2025-01-04_10-00-00.wav",
       mp3_url := "/recordings/Demo_2025-01-04_10-00-00.mp3",
       auto_gcs_uploaded := false,
       auto_transcribed := false } : UploadResponse).original_filename =
      derivedStem envOk reqNoBase ++
        (if pathSuffix reqNoBase.filename = "" then ".bin"
         else lowerString (pathSuffix reqNoBase.filename)) ∧
    ({ original_filename := "Demo_2025-01-04_10-00-00.wav",
       mp3_filename := "Demo_2025-01-04_10-00-00.mp3",
       original_url := "/recordings/Demo_2025-01-04_10-00-00.wav",
       mp3_url := "/recordings/Demo_2025-01-04_10-00-00.mp3",
       auto_gcs_uploaded := false,
       auto_transcribed := false } : UploadResponse).original_filename ∈
      (upload envOk reqNoBase).2.filesWritten ∧
    ((reqNoBase.name_base = none ∨ reqNoBase.name_base = some "") →
      derivedBase reqNoBase =
        _safe_stem (if pathStem reqNoBase.filename = "" then "recording"
          else pathStem reqNoBase.filename)) :=
  upload_original_name envOk reqNoBase
    { original_filename := "Demo_2025-01-04_10-00-00.wav",
      mp3_filename := "Demo_2025-01-04_10-00-00.mp3",
      original_url := "/recordings/Demo_2025-01-04_10-00-00.wav",
      mp3_url := "/recordings/Demo_2025-01-04_10-00-00.mp3",
      auto_gcs_uploaded := false,
      auto_transcribed := false } rfl

end StudioRecorder
